import Mathlib

/-!
Verification of the TripLogger recommendation engine (backend/app.py).

The engine's numeric values (SQLite REAL / Python float) are modelled as real
numbers; Python's stable `list.sort` and SQLite's `ORDER BY popularity DESC`
are modelled with the stable `List.mergeSort`.  The `recommend` route is
embedded as a pure function from the user's trip list (already sorted by
rating descending, as delivered by the SQL query) and the destination catalog
to a result record.  Python's rendering of a float inside an f-string is an
explicit parameter `render : ℝ → String`.
-/

open List

namespace TripLogger

/-- A row of the `trips` table as selected by the recommendation route:
`SELECT destination, budget, rating`.  Catalog rows are selected with the
aliases `name as destination, avg_budget as budget, avg_rating as rating`,
so they take this same shape. -/
structure Trip where
  destination : String
  budget : ℝ
  rating : ℝ

instance : Inhabited Trip := ⟨⟨"", 0, 0⟩⟩

/-- A row of the `destinations` table (the fields used by the engine). -/
structure DestinationRow where
  name : String
  avg_budget : ℝ
  avg_rating : ℝ
  popularity : ℤ

/-- `SELECT name as destination, avg_budget as budget, avg_rating as rating`. -/
def DestinationRow.toTrip (d : DestinationRow) : Trip :=
  ⟨d.name, d.avg_budget, d.avg_rating⟩

/-- One entry of the JSON `recommendations` array. -/
structure Recommendation where
  destination : String
  budget : ℝ
  rating : ℝ
  is_new : Bool
  reason : String

/-- The JSON body returned by the `/recommend` route: a list of
recommendations plus an optional advisory `message`. -/
structure RecommendResult where
  recommendations : List Recommendation
  message : Option String

/-- `_vectorize_trip`: `(math.log1p(trip["budget"]) * 2.0,
trip["rating"] / 5.0 * 1.0)`, with `math.log1p x = ln (1 + x)`. -/
noncomputable def vectorize_trip (trip : Trip) : ℝ × ℝ :=
  (Real.log (1 + trip.budget) * 2.0, trip.rating / 5.0 * 1.0)

/-- `_euclidean_distance`: `math.sqrt(sum((x - y) ** 2 for x, y in zip(a, b)))`
on two pairs. -/
noncomputable def euclidean_distance (a b : ℝ × ℝ) : ℝ :=
  Real.sqrt ((a.1 - b.1) ^ 2 + (a.2 - b.2) ^ 2)

/-- The neighbour count: `k = 3` in the route body. -/
def k : ℕ := 3

/-- Comparator embedding `ORDER BY popularity DESC` as a stable sort:
`a` may precede `b` iff `b.popularity ≤ a.popularity`. -/
def popularityDesc (a b : DestinationRow) : Bool :=
  decide (b.popularity ≤ a.popularity)

/-- `SELECT ... FROM destinations ORDER BY popularity DESC LIMIT 5`. -/
def topPopular (catalog : List DestinationRow) : List DestinationRow :=
  (catalog.mergeSort popularityDesc).take 5

/-- The cold-start branch (`len(user_trips) < 3`). -/
def coldStartResult (catalog : List DestinationRow) : RecommendResult :=
  ⟨(topPopular catalog).map
      (fun d => ⟨d.name, d.avg_budget, d.avg_rating, true,
                 "Popular destination worldwide"⟩),
   some "Add trips to get personalized recommendations."⟩

/-- `visited_destinations = {trip["destination"] for trip in user_trips}`
(a set is only ever used for membership tests, so a list of names suffices). -/
def visitedDestinations (user_trips : List Trip) : List String :=
  user_trips.map Trip.destination

/-- `unvisited_destinations = [d for d in all_destinations
if d["destination"] not in visited_destinations]`. -/
def unvisitedDestinations (user_trips : List Trip)
    (catalog : List DestinationRow) : List Trip :=
  (catalog.map DestinationRow.toTrip).filter
    (fun d => decide (d.destination ∉ visitedDestinations user_trips))

/-- The `distances` list: for each candidate in
`unvisited_destinations + user_trips[1:]` the triple
`(dist, candidate, is_new)`, with `user_trips[0]` as the target. -/
noncomputable def scored (user_trips : List Trip)
    (catalog : List DestinationRow) : List (ℝ × Trip × Bool) :=
  (unvisitedDestinations user_trips catalog ++ user_trips.tail).map
    (fun c => (euclidean_distance (vectorize_trip user_trips.headI)
                 (vectorize_trip c),
               c,
               decide (c.destination ∉ visitedDestinations user_trips)))

/-- The key order of `distances.sort(key=lambda x: x[0])`. -/
noncomputable def distLe (x y : ℝ × Trip × Bool) : Bool :=
  decide (x.1 ≤ y.1)

/-- `distances.sort(key=lambda x: x[0])` — Python's sort is stable. -/
noncomputable def rankedCandidates (user_trips : List Trip)
    (catalog : List DestinationRow) : List (ℝ × Trip × Bool) :=
  (scored user_trips catalog).mergeSort distLe

/-- The `reason` f-string of the `else` (not new) branch. -/
def reason_not_new (render : ℝ → String) (top_trip trip : Trip) : String :=
  "Similar budget ($" ++ render trip.budget ++ ") and rating (" ++
    render trip.rating ++ ") to your top-rated trip to " ++
    top_trip.destination ++ "."

/-- The `reason` f-string of the `if is_new` branch. -/
def reason_new (render : ℝ → String) (top_trip trip : Trip) : String :=
  "✨ NEW - Similar budget ($" ++ render trip.budget ++ ") and rating (" ++
    render trip.rating ++ ") to your top-rated trip to " ++
    top_trip.destination ++ "."

/-- The loop body building one entry of `recommendations` from a
`(dist, trip, is_new)` triple. -/
noncomputable def toRecommendation (render : ℝ → String) (top_trip : Trip)
    (x : ℝ × Trip × Bool) : Recommendation :=
  ⟨x.2.1.destination, x.2.1.budget, x.2.1.rating, x.2.2,
   if x.2.2 then reason_new render top_trip x.2.1
   else reason_not_new render top_trip x.2.1⟩

/-- The personalized branch (`len(user_trips) >= 3`): score the candidates,
stable-sort by distance, take the first `k`, and render each one.  The JSON
body of this branch has no `message` key. -/
noncomputable def personalizedResult (render : ℝ → String)
    (user_trips : List Trip) (catalog : List DestinationRow) :
    RecommendResult :=
  ⟨((rankedCandidates user_trips catalog).take k).map
      (toRecommendation render user_trips.headI),
   none⟩

/-- The `/recommend` route body, given the user's trips (sorted by rating
descending by the SQL query) and the destination catalog. -/
noncomputable def recommend (render : ℝ → String) (user_trips : List Trip)
    (catalog : List DestinationRow) : RecommendResult :=
  if user_trips.length < 3 then coldStartResult catalog
  else personalizedResult render user_trips catalog

/-- The feature plane `ℝ × ℝ` seen as the Euclidean space on two
coordinates, used to relate `euclidean_distance` to the metric-space
distance. -/
noncomputable def toE2 (p : ℝ × ℝ) : EuclideanSpace ℝ (Fin 2) :=
  ![p.1, p.2]

theorem popularityDesc_trans : ∀ a b c : DestinationRow,
    popularityDesc a b → popularityDesc b c → popularityDesc a c := by
  intro a b c hab hbc
  simp only [popularityDesc, decide_eq_true_eq] at hab hbc ⊢
  omega

theorem popularityDesc_total : ∀ a b : DestinationRow,
    popularityDesc a b || popularityDesc b a := by
  intro a b
  simp only [popularityDesc, Bool.or_eq_true, decide_eq_true_eq]
  omega

theorem distLe_iff (x y : ℝ × Trip × Bool) : distLe x y = true ↔ x.1 ≤ y.1 := by
  simp [distLe]

theorem distLe_trans : ∀ a b c : ℝ × Trip × Bool,
    distLe a b → distLe b c → distLe a c := by
  intro a b c hab hbc
  simp only [distLe, decide_eq_true_eq] at hab hbc ⊢
  exact le_trans hab hbc

theorem distLe_total : ∀ a b : ℝ × Trip × Bool, distLe a b || distLe b a := by
  intro a b
  simp only [distLe, Bool.or_eq_true, decide_eq_true_eq]
  exact le_total a.1 b.1

theorem ranked_perm (u : List Trip) (c : List DestinationRow) :
    rankedCandidates u c ~ scored u c :=
  List.mergeSort_perm _ _

theorem ranked_pairwise (u : List Trip) (c : List DestinationRow) :
    (rankedCandidates u c).Pairwise (fun a b => distLe a b = true) :=
  List.sorted_mergeSort distLe_trans distLe_total (scored u c)

theorem ranked_sorted (u : List Trip) (c : List DestinationRow) :
    (rankedCandidates u c).Pairwise (fun x y => x.1 ≤ y.1) :=
  (ranked_pairwise u c).imp (fun h => (distLe_iff _ _).1 h)

theorem ranked_stable (u : List Trip) (c : List DestinationRow)
    (x y : ℝ × Trip × Bool) (hxy : [x, y] <+ scored u c) (hle : x.1 ≤ y.1) :
    [x, y] <+ rankedCandidates u c :=
  List.sublist_mergeSort distLe_trans distLe_total
    (List.pairwise_pair.mpr ((distLe_iff x y).2 hle)) hxy

theorem popular_stable (catalog : List DestinationRow) (a b : DestinationRow)
    (hab : [a, b] <+ catalog) (h : b.popularity ≤ a.popularity) :
    [a, b] <+ catalog.mergeSort popularityDesc :=
  List.sublist_mergeSort popularityDesc_trans popularityDesc_total
    (List.pairwise_pair.mpr (by simpa [popularityDesc] using h)) hab

theorem topPopular_sorted (catalog : List DestinationRow) :
    (topPopular catalog).Pairwise (fun a b => b.popularity ≤ a.popularity) := by
  have h2 : (catalog.mergeSort popularityDesc).Pairwise
      (fun a b => b.popularity ≤ a.popularity) :=
    (List.sorted_mergeSort popularityDesc_trans popularityDesc_total
      catalog).imp (fun hab => by simpa [popularityDesc] using hab)
  exact h2.sublist (List.take_sublist _ _)

theorem euclidean_distance_eq_dist (a b : ℝ × ℝ) :
    euclidean_distance a b = dist (toE2 a) (toE2 b) := by
  rw [EuclideanSpace.dist_eq]
  simp [euclidean_distance, toE2, Fin.sum_univ_two, Real.dist_eq, sq_abs]

theorem euclidean_distance_nonneg (a b : ℝ × ℝ) :
    0 ≤ euclidean_distance a b :=
  Real.sqrt_nonneg _

theorem toE2_inj (a b : ℝ × ℝ) (h : toE2 a = toE2 b) : a = b := by
  have h1 := congrFun h 0
  have h2 := congrFun h 1
  simp [toE2] at h1 h2
  exact Prod.ext h1 h2

theorem mem_scored (u : List Trip) (c : List DestinationRow)
    (x : ℝ × Trip × Bool) (hx : x ∈ scored u c) :
    x.1 = euclidean_distance (vectorize_trip u.headI) (vectorize_trip x.2.1) ∧
    x.2.2 = decide (x.2.1.destination ∉ visitedDestinations u) := by
  simp only [scored] at hx
  rcases List.mem_map.1 hx with ⟨t, _, rfl⟩
  exact ⟨rfl, rfl⟩

theorem scored_fst_nonneg (u : List Trip) (c : List DestinationRow)
    (x : ℝ × Trip × Bool) (hx : x ∈ scored u c) : 0 ≤ x.1 := by
  rw [(mem_scored u c x hx).1]
  exact euclidean_distance_nonneg _ _

/-- C4: for every record with budget ≥ 0 and rating in [0,5],
`_vectorize_trip` returns `(ln (1 + budget) * 2.0, rating / 5.0)`; it is
total on this domain (the theorem holds with no further conditions), and
budget = 0 yields a first component of exactly 0. -/
theorem C4_vectorize (t : Trip) (hb : 0 ≤ t.budget)
    (hr : 0 ≤ t.rating ∧ t.rating ≤ 5) :
    vectorize_trip t = (Real.log (1 + t.budget) * 2.0, t.rating / 5.0) ∧
    (t.budget = 0 → (vectorize_trip t).1 = 0) := by
  constructor
  · norm_num [vectorize_trip]
  · intro h
    simp [vectorize_trip, h]

theorem C4_witness :
    vectorize_trip ⟨"Paris", 0, 3⟩ =
      (Real.log (1 + (⟨"Paris", 0, 3⟩ : Trip).budget) * 2.0,
       (⟨"Paris", 0, 3⟩ : Trip).rating / 5.0) ∧
    ((⟨"Paris", 0, 3⟩ : Trip).budget = 0 →
      (vectorize_trip ⟨"Paris", 0, 3⟩).1 = 0) :=
  C4_vectorize ⟨"Paris", 0, 3⟩ (by norm_num) ⟨by norm_num, by norm_num⟩

/-- C5: `_euclidean_distance` is the plain Euclidean norm of the
componentwise difference, is symmetric, vanishes exactly on equal vectors,
and satisfies the triangle inequality. -/
theorem C5_distance_metric :
    (∀ a b : ℝ × ℝ, euclidean_distance a b =
        Real.sqrt ((a.1 - b.1) ^ 2 + (a.2 - b.2) ^ 2)) ∧
    (∀ a b : ℝ × ℝ, euclidean_distance a b = euclidean_distance b a) ∧
    (∀ a b : ℝ × ℝ, euclidean_distance a b = 0 ↔ a = b) ∧
    (∀ v : ℝ × ℝ, euclidean_distance v v = 0) ∧
    (∀ a b c : ℝ × ℝ, euclidean_distance a c ≤
        euclidean_distance a b + euclidean_distance b c) := by
  refine ⟨fun a b => rfl, ?_, ?_, ?_, ?_⟩
  · intro a b
    rw [euclidean_distance_eq_dist, euclidean_distance_eq_dist, dist_comm]
  · intro a b
    rw [euclidean_distance_eq_dist, dist_eq_zero]
    exact ⟨toE2_inj a b, fun h => by rw [h]⟩
  · intro v
    rw [euclidean_distance_eq_dist, dist_self]
  · intro a b c
    rw [euclidean_distance_eq_dist, euclidean_distance_eq_dist,
      euclidean_distance_eq_dist]
    exact dist_triangle _ _ _

/-- C6: with fewer than 3 trips and an empty catalog, `recommend` returns an
empty recommendation list together with the advisory message (no error). -/
theorem C6_cold_start_empty_catalog (render : ℝ → String)
    (user_trips : List Trip) (h : user_trips.length < 3) :
    recommend render user_trips [] =
      ⟨[], some "Add trips to get personalized recommendations."⟩ := by
  simp [recommend, if_pos h, coldStartResult, topPopular]

theorem C6_witness :
    ([] : List Trip).length < 3 ∧
    recommend (fun _ => "") [] [] =
      ⟨[], some "Add trips to get personalized recommendations."⟩ :=
  ⟨by decide, C6_cold_start_empty_catalog (fun _ => "") [] (by decide)⟩

/-- C7: vectorization is strictly monotonic in each input separately —
increasing budget (rating fixed) strictly increases the budget component,
and increasing rating (budget fixed) strictly increases the rating
component. -/
theorem C7_monotonicity :
    (∀ (d : String) (r b₁ b₂ : ℝ), 0 ≤ b₁ → b₁ < b₂ →
        (vectorize_trip ⟨d, b₁, r⟩).1 < (vectorize_trip ⟨d, b₂, r⟩).1) ∧
    (∀ (d : String) (b r₁ r₂ : ℝ), 0 ≤ r₁ → r₁ < r₂ → r₂ ≤ 5 →
        (vectorize_trip ⟨d, b, r₁⟩).2 < (vectorize_trip ⟨d, b, r₂⟩).2) := by
  constructor
  · intro d r b₁ b₂ hb hlt
    have h1 : Real.log (1 + b₁) < Real.log (1 + b₂) :=
      Real.log_lt_log (by linarith) (by linarith)
    simp only [vectorize_trip]
    exact mul_lt_mul_of_pos_right h1 (by norm_num)
  · intro d b r₁ r₂ h0 hlt h5
    simp only [vectorize_trip]
    norm_num
    linarith

theorem C7_witness :
    (vectorize_trip ⟨"", 0, 0⟩).1 < (vectorize_trip ⟨"", 1, 0⟩).1 ∧
    (vectorize_trip ⟨"", 0, 0⟩).2 < (vectorize_trip ⟨"", 0, 1⟩).2 :=
  ⟨C7_monotonicity.1 "" 0 0 1 (by norm_num) (by norm_num),
   C7_monotonicity.2 "" 0 0 1 (by norm_num) (by norm_num) (by norm_num)⟩

/-- C8: `recommend` is deterministic — two invocations on identical trip
and catalog snapshots produce identical results (content and order). -/
theorem C8_deterministic (render : ℝ → String) (t₁ t₂ : List Trip)
    (c₁ c₂ : List DestinationRow) (ht : t₁ = t₂) (hc : c₁ = c₂) :
    recommend render t₁ c₁ = recommend render t₂ c₂ := by
  rw [ht, hc]

theorem C8_witness :
    recommend (fun _ => "") [] [] = recommend (fun _ => "") [] [] :=
  C8_deterministic (fun _ => "") [] [] [] [] rfl rfl

/-- C1: with fewer than 3 trips `recommend` takes the cold-start path — the
catalog's top 5 destinations by popularity descending (stably sorted, so
catalog order breaks ties), each with `is_new = true` and reason
`"Popular destination worldwide"`, plus the advisory message; the output
depends only on the trip count, and at exactly 3 trips the personalized
branch runs instead. -/
theorem C1_cold_start (render : ℝ → String) (catalog : List DestinationRow) :
    (∀ user_trips : List Trip, user_trips.length < 3 →
        recommend render user_trips catalog =
          ⟨((catalog.mergeSort popularityDesc).take 5).map
              (fun d => ⟨d.name, d.avg_budget, d.avg_rating, true,
                         "Popular destination worldwide"⟩),
           some "Add trips to get personalized recommendations."⟩) ∧
    (topPopular catalog).Pairwise (fun a b => b.popularity ≤ a.popularity) ∧
    (∀ a b : DestinationRow, [a, b] <+ catalog →
        a.popularity = b.popularity →
        [a, b] <+ catalog.mergeSort popularityDesc) ∧
    (∀ t₁ t₂ : List Trip, t₁.length < 3 → t₁.length = t₂.length →
        recommend render t₁ catalog = recommend render t₂ catalog) ∧
    (∀ user_trips : List Trip, user_trips.length = 3 →
        recommend render user_trips catalog =
          personalizedResult render user_trips catalog ∧
        (recommend render user_trips catalog).message = none) := by
  refine ⟨?_, topPopular_sorted catalog, ?_, ?_, ?_⟩
  · intro u h
    unfold recommend
    rw [if_pos h]
    rfl
  · intro a b hab hpop
    exact popular_stable catalog a b hab (le_of_eq hpop.symm)
  · intro t₁ t₂ h1 h2
    have h1' : t₂.length < 3 := by omega
    unfold recommend
    rw [if_pos h1, if_pos h1']
  · intro u h
    have h3 : ¬ u.length < 3 := by omega
    unfold recommend
    rw [if_neg h3]
    exact ⟨rfl, rfl⟩

theorem C1_witness :
    recommend (fun _ => "") [] [⟨"A", 1, 1, 7⟩, ⟨"B", 2, 2, 7⟩] =
      ⟨((([⟨"A", 1, 1, 7⟩, ⟨"B", 2, 2, 7⟩] :
            List DestinationRow).mergeSort popularityDesc).take 5).map
          (fun d => ⟨d.name, d.avg_budget, d.avg_rating, true,
                     "Popular destination worldwide"⟩),
       some "Add trips to get personalized recommendations."⟩ ∧
    [(⟨"A", 1, 1, 7⟩ : DestinationRow), ⟨"B", 2, 2, 7⟩] <+
      ([⟨"A", 1, 1, 7⟩, ⟨"B", 2, 2, 7⟩] :
        List DestinationRow).mergeSort popularityDesc ∧
    recommend (fun _ => "") [⟨"a", 1, 5⟩, ⟨"b", 2, 4⟩, ⟨"c", 3, 3⟩]
        [⟨"A", 1, 1, 7⟩, ⟨"B", 2, 2, 7⟩] =
      personalizedResult (fun _ => "") [⟨"a", 1, 5⟩, ⟨"b", 2, 4⟩, ⟨"c", 3, 3⟩]
        [⟨"A", 1, 1, 7⟩, ⟨"B", 2, 2, 7⟩] :=
  ⟨(C1_cold_start (fun _ => "") [⟨"A", 1, 1, 7⟩, ⟨"B", 2, 2, 7⟩]).1 []
      (by decide),
   (C1_cold_start (fun _ => "") [⟨"A", 1, 1, 7⟩, ⟨"B", 2, 2, 7⟩]).2.2.1
      ⟨"A", 1, 1, 7⟩ ⟨"B", 2, 2, 7⟩ (List.Sublist.refl _) rfl,
   ((C1_cold_start (fun _ => "") [⟨"A", 1, 1, 7⟩, ⟨"B", 2, 2, 7⟩]).2.2.2.2
      [⟨"a", 1, 5⟩, ⟨"b", 2, 4⟩, ⟨"c", 3, 3⟩] (by decide)).1⟩

/-- C2: with at least 3 trips the personalized branch runs: the target is
the first trip, the candidates are the unvisited catalog destinations
followed by the remaining trips, scored by Euclidean distance to the
target, stable-sorted ascending (equal distances keep concatenation order),
and exactly the first `k = 3` are returned, so the output never has more
than 3 entries. -/
theorem C2_personalized (render : ℝ → String) (user_trips : List Trip)
    (catalog : List DestinationRow) (h : 3 ≤ user_trips.length) :
    recommend render user_trips catalog =
      personalizedResult render user_trips catalog ∧
    scored user_trips catalog =
      (unvisitedDestinations user_trips catalog ++ user_trips.tail).map
        (fun c => (euclidean_distance (vectorize_trip user_trips.headI)
                     (vectorize_trip c), c,
                   decide (c.destination ∉ visitedDestinations user_trips))) ∧
    rankedCandidates user_trips catalog ~ scored user_trips catalog ∧
    (rankedCandidates user_trips catalog).Pairwise (fun x y => x.1 ≤ y.1) ∧
    (∀ x y : ℝ × Trip × Bool, [x, y] <+ scored user_trips catalog →
        x.1 ≤ y.1 → [x, y] <+ rankedCandidates user_trips catalog) ∧
    (recommend render user_trips catalog).recommendations =
      ((rankedCandidates user_trips catalog).take k).map
        (toRecommendation render user_trips.headI) ∧
    (recommend render user_trips catalog).recommendations.length ≤ 3 := by
  have h3 : ¬ user_trips.length < 3 := by omega
  have hrec : recommend render user_trips catalog =
      personalizedResult render user_trips catalog := by
    unfold recommend
    rw [if_neg h3]
  refine ⟨hrec, rfl, ranked_perm _ _, ranked_sorted _ _,
    fun x y hxy hle => ranked_stable _ _ x y hxy hle, ?_, ?_⟩
  · rw [hrec]
    rfl
  · rw [hrec]
    simp only [personalizedResult, List.length_map, List.length_take, k]
    omega

theorem C2_witness :
    (recommend (fun _ => "")
        [⟨"Paris", 5000, 4.9⟩, ⟨"Rome", 4800, 4.7⟩, ⟨"Tokyo", 6000, 4.5⟩]
        [⟨"Bangkok", 2600, 4.8, 92⟩]).recommendations.length ≤ 3 :=
  (C2_personalized (fun _ => "")
    [⟨"Paris", 5000, 4.9⟩, ⟨"Rome", 4800, 4.7⟩, ⟨"Tokyo", 6000, 4.5⟩]
    [⟨"Bangkok", 2600, 4.8, 92⟩] (by decide)).2.2.2.2.2.2

/-- C3: every personalized recommendation copies the selected candidate's
destination, budget and rating, with `is_new` true exactly when the name is
unvisited; its reason references the candidate's budget and rating and the
target's destination; the new-reason is the plain reason with a decorative
prefix; and the personalized result has no message. -/
theorem C3_reasons (render : ℝ → String) (user_trips : List Trip)
    (catalog : List DestinationRow) (h : 3 ≤ user_trips.length) :
    (∀ r ∈ (recommend render user_trips catalog).recommendations,
        ∃ x ∈ rankedCandidates user_trips catalog,
          r = toRecommendation render user_trips.headI x ∧
          r.destination = x.2.1.destination ∧
          r.budget = x.2.1.budget ∧
          r.rating = x.2.1.rating ∧
          (r.is_new = true ↔
            x.2.1.destination ∉ visitedDestinations user_trips) ∧
          r.reason = (if r.is_new then
              reason_new render user_trips.headI x.2.1
            else reason_not_new render user_trips.headI x.2.1)) ∧
    (∀ top_trip trip : Trip, reason_new render top_trip trip =
        "✨ NEW - " ++ reason_not_new render top_trip trip) ∧
    (∀ top_trip trip : Trip, ∃ s₁ s₂ s₃ s₄ : String,
        reason_not_new render top_trip trip =
          s₁ ++ render trip.budget ++ s₂ ++ render trip.rating ++ s₃ ++
            top_trip.destination ++ s₄) ∧
    (recommend render user_trips catalog).message = none := by
  have h3 : ¬ user_trips.length < 3 := by omega
  have hrec : recommend render user_trips catalog =
      personalizedResult render user_trips catalog := by
    unfold recommend
    rw [if_neg h3]
  refine ⟨?_, ?_, ?_, ?_⟩
  · intro r hr
    rw [hrec] at hr
    have hr' : r ∈ ((rankedCandidates user_trips catalog).take k).map
        (toRecommendation render user_trips.headI) := by
      simpa [personalizedResult] using hr
    rcases List.mem_map.1 hr' with ⟨x, hx, rfl⟩
    have hxr : x ∈ rankedCandidates user_trips catalog :=
      List.take_subset _ _ hx
    have hsc : x ∈ scored user_trips catalog :=
      (ranked_perm _ _).mem_iff.1 hxr
    have h22 := (mem_scored _ _ x hsc).2
    refine ⟨x, hxr, rfl, rfl, rfl, rfl, ?_, rfl⟩
    show x.2.2 = true ↔ _
    rw [h22]
    exact decide_eq_true_iff
  · intro top_trip trip
    have e : ("✨ NEW - Similar budget ($" : String) =
        "✨ NEW - " ++ "Similar budget ($" := by decide
    simp only [reason_new, reason_not_new, e, String.append_assoc]
  · intro top_trip trip
    exact ⟨"Similar budget ($", ") and rating (",
      ") to your top-rated trip to ", ".", rfl⟩
  · rw [hrec]
    rfl

theorem C3_witness :
    (recommend (fun _ => "")
        [⟨"Paris", 5000, 4.9⟩, ⟨"Rome", 4800, 4.7⟩, ⟨"Tokyo", 6000, 4.5⟩]
        [⟨"Bangkok", 2600, 4.8, 92⟩]).message = none :=
  (C3_reasons (fun _ => "")
    [⟨"Paris", 5000, 4.9⟩, ⟨"Rome", 4800, 4.7⟩, ⟨"Tokyo", 6000, 4.5⟩]
    [⟨"Bangkok", 2600, 4.8, 92⟩] (by decide)).2.2.2

/-- C9: with n ≥ 3 trips the personalized path returns exactly
`min 3 (u + n - 1)` recommendations, where `u` counts the unvisited catalog
destinations; when no catalog destination is unvisited every returned item
has `is_new = false` (it is one of the user's own other trips), and no error
occurs even when fewer than 3 items result. -/
theorem C9_result_count (render : ℝ → String) (user_trips : List Trip)
    (catalog : List DestinationRow) (h : 3 ≤ user_trips.length) :
    (recommend render user_trips catalog).recommendations.length =
      min 3 ((unvisitedDestinations user_trips catalog).length +
        (user_trips.length - 1)) ∧
    (unvisitedDestinations user_trips catalog = [] →
        ∀ r ∈ (recommend render user_trips catalog).recommendations,
          r.is_new = false) := by
  have h3 : ¬ user_trips.length < 3 := by omega
  have hrec : recommend render user_trips catalog =
      personalizedResult render user_trips catalog := by
    unfold recommend
    rw [if_neg h3]
  constructor
  · rw [hrec]
    simp only [personalizedResult, List.length_map, List.length_take,
      rankedCandidates, List.length_mergeSort, scored, List.length_append,
      List.length_tail, k]
  · intro hu r hr
    rw [hrec] at hr
    have hr' : r ∈ ((rankedCandidates user_trips catalog).take k).map
        (toRecommendation render user_trips.headI) := by
      simpa [personalizedResult] using hr
    rcases List.mem_map.1 hr' with ⟨x, hx, rfl⟩
    have hsc : x ∈ scored user_trips catalog :=
      (ranked_perm _ _).mem_iff.1 (List.take_subset _ _ hx)
    simp only [scored, hu, List.nil_append] at hsc
    rcases List.mem_map.1 hsc with ⟨t, ht, rfl⟩
    show decide (t.destination ∉ visitedDestinations user_trips) = false
    have hv : t.destination ∈ visitedDestinations user_trips :=
      List.mem_map_of_mem _ (List.mem_of_mem_tail ht)
    exact decide_eq_false (fun hP => hP hv)

theorem C9_witness :
    (recommend (fun _ => "")
        [⟨"Paris", 5000, 4.9⟩, ⟨"Rome", 4800, 4.7⟩, ⟨"Tokyo", 6000, 4.5⟩]
        []).recommendations.length =
      min 3 ((unvisitedDestinations
          [⟨"Paris", 5000, 4.9⟩, ⟨"Rome", 4800, 4.7⟩, ⟨"Tokyo", 6000, 4.5⟩]
          []).length +
        (([⟨"Paris", 5000, 4.9⟩, ⟨"Rome", 4800, 4.7⟩, ⟨"Tokyo", 6000, 4.5⟩] :
            List Trip).length - 1)) :=
  (C9_result_count (fun _ => "")
    [⟨"Paris", 5000, 4.9⟩, ⟨"Rome", 4800, 4.7⟩, ⟨"Tokyo", 6000, 4.5⟩]
    [] (by decide)).1

/-- C10: the target trip is never a candidate (the candidate pool has
exactly `u + n - 1` entries, all of `userTrips.tail` among them with
`is_new = false`, repeats included); a repeat trip with the target's budget
and rating is at distance 0; and in the ranked list everything ordered
before a zero-distance entry also has distance 0, so a zero-distance repeat
precedes every positive-distance candidate. -/
theorem C10_repeat_trips (user_trips : List Trip)
    (catalog : List DestinationRow) (h : 3 ≤ user_trips.length) :
    (scored user_trips catalog).length =
      (unvisitedDestinations user_trips catalog).length +
        (user_trips.length - 1) ∧
    (∀ t ∈ user_trips.tail,
        (euclidean_distance (vectorize_trip user_trips.headI)
           (vectorize_trip t), t, false) ∈ scored user_trips catalog) ∧
    (∀ t : Trip, t.budget = user_trips.headI.budget →
        t.rating = user_trips.headI.rating →
        euclidean_distance (vectorize_trip user_trips.headI)
          (vectorize_trip t) = 0) ∧
    (∀ x y : ℝ × Trip × Bool, [x, y] <+ rankedCandidates user_trips catalog →
        y.1 = 0 → x.1 = 0) := by
  refine ⟨?_, ?_, ?_, ?_⟩
  · simp [scored, List.length_tail]
  · intro t ht
    have hv : t.destination ∈ visitedDestinations user_trips :=
      List.mem_map_of_mem _ (List.mem_of_mem_tail ht)
    have hb : decide (t.destination ∉ visitedDestinations user_trips) =
        false := decide_eq_false (fun hP => hP hv)
    refine List.mem_map.2 ⟨t, List.mem_append_right _ ht, ?_⟩
    rw [hb]
  · intro t hb hr
    have hv : vectorize_trip t = vectorize_trip user_trips.headI := by
      simp [vectorize_trip, hb, hr]
    rw [hv, euclidean_distance_eq_dist, dist_self]
  · intro x y hxy hy
    have hp : List.Pairwise (fun u v : ℝ × Trip × Bool => u.1 ≤ v.1)
        [x, y] := (ranked_sorted _ _).sublist hxy
    have hle : x.1 ≤ y.1 :=
      (List.pairwise_cons.mp hp).1 y (List.mem_cons_self _ _)
    have hx : x ∈ rankedCandidates user_trips catalog :=
      hxy.subset (List.mem_cons_self _ _)
    have hx0 : 0 ≤ x.1 :=
      scored_fst_nonneg _ _ x ((ranked_perm _ _).mem_iff.1 hx)
    linarith [hle, hy.symm.le]

theorem C10_witness :
    (scored [⟨"P", 5, 5⟩, ⟨"P", 5, 5⟩, ⟨"Q", 1, 1⟩] []).length =
      (unvisitedDestinations [⟨"P", 5, 5⟩, ⟨"P", 5, 5⟩, ⟨"Q", 1, 1⟩]
        []).length +
      (([⟨"P", 5, 5⟩, ⟨"P", 5, 5⟩, ⟨"Q", 1, 1⟩] : List Trip).length - 1) :=
  (C10_repeat_trips [⟨"P", 5, 5⟩, ⟨"P", 5, 5⟩, ⟨"Q", 1, 1⟩] []
    (by decide)).1

end TripLogger
